import Mathlib

/-!
Shallow embedding of the django-voting generic vote view
(voting/views.py and voting/urls.py).

Conventions of the embedding:
* URL keyword arguments reaching the view are `Kwargs`; a Python value that
  may be absent is an `Option`, and Python truthiness of an optional string
  is `pyTruthy` (absent and empty string are falsy, like None and "").
* A raised exception is an `Except.error` carrying a `PyErr`:
  `PyErr.attributeError` is the generic bad-input condition the views raise,
  `PyErr.nameError` models the Python NameError raised on reading a variable
  name that is bound in no scope, and `PyErr.multipleObjectsReturned` models
  the uncaught manager exception for a non-unique lookup.
* The store `Vote.objects` lives in voting/models.py, which is not among the
  sources; `record_vote`, `toggle` and `get_score` are modelled from the
  specification (see their doc comments).
* Rendered responses are represented by the context dictionary the view
  passes to the renderer, as an association list `Context`.
-/

namespace Voting

/-- A database row: field name to value pairs, the primary key included. -/
structure Obj where
  fields : List (String × String)
deriving Repr, DecidableEq

/-- A django model as the view uses it: its meta app_label, the name of its
primary-key field (`_meta.pk.name`) and the rows of its default manager. -/
structure Model where
  app_label : String
  pkName : String
  rows : List Obj
deriving Repr, DecidableEq

/-- The keyword arguments the URL resolver (or an explicit URLconf entry)
hands to the view: `self.kwargs` in voting/views.py. -/
structure Kwargs where
  model : Option Model := none
  app_label : Option String := none
  model_name : Option String := none
  object_id : Option String := none
  slug : Option String := none
  direction : Option String := none
deriving Repr, DecidableEq

/-- Exceptions that escape the view code. -/
inductive PyErr where
  | attributeError (msg : String)
  | nameError (nm : String)
  | multipleObjectsReturned
deriving Repr, DecidableEq

/-- Python truthiness of an optional string keyword argument:
None and the empty string are falsy. -/
def pyTruthy : Option String → Bool
  | none => false
  | some s => !s.isEmpty

/-- One persisted vote record, keyed by (entity, voter). -/
structure VoteRec where
  entity : Obj
  voter : String
  direction : Int
deriving Repr, DecidableEq

/-- The persisted vote table. -/
structure VoteState where
  votes : List VoteRec
deriving Repr, DecidableEq

/-- Modelled from the spec: `Vote.objects.record_vote` (voting/models.py is
absent from the sources) upserts the vote of (entity, voter) to the given
direction and returns the resulting Vote record; a clear stores direction 0. -/
def record_vote (obj : Obj) (user : String) (d : Int) (st : VoteState) :
    VoteRec × VoteState :=
  let r : VoteRec := ⟨obj, user, d⟩
  (r, ⟨r :: st.votes.filter (fun v => !(v.entity == obj && v.voter == user))⟩)

/-- The current vote of (entity, voter), if any. -/
def current_vote (obj : Obj) (user : String) (st : VoteState) : Option VoteRec :=
  st.votes.find? (fun v => v.entity == obj && v.voter == user)

/-- Modelled from the spec: `Vote.objects.toggle`: with no existing up vote it
sets the vote to up (+1) and returns it; with an existing up vote it clears
and returns None. The behaviour on an existing down vote is left open by the
spec; it is modelled as setting up, which no claim depends on. -/
def toggle (obj : Obj) (user : String) (st : VoteState) :
    Option VoteRec × VoteState :=
  match current_vote obj user st with
  | some v =>
      if v.direction = 1 then
        (none, (record_vote obj user 0 st).2)
      else
        let p := record_vote obj user 1 st
        (some p.1, p.2)
  | none =>
      let p := record_vote obj user 1 st
      (some p.1, p.2)

/-- Modelled from the spec: `Vote.objects.get_score` returns the sum of the
directions of all current votes on the entity; it is a pure read. -/
def get_score (obj : Obj) (st : VoteState) : Int :=
  ((st.votes.filter (fun v => v.entity == obj)).map (fun v => v.direction)).sum

/-- VOTE_DIRECTIONS, voting/views.py line 13. -/
def VOTE_DIRECTIONS : List (String × Int) := [("up", 1), ("down", -1), ("clear", 0)]

/-- dict(VOTE_DIRECTIONS)[direction]; `none` models the KeyError branch. -/
def dirLookup (d : String) : Option Int :=
  (VOTE_DIRECTIONS.find? (fun p => p.1 == d)).map (fun p => p.2)

/-- VoteObjectMixin.get_model (voting/views.py lines 28-54). An explicitly
supplied model kwarg (always truthy) is returned at once. Otherwise the
source tests `if not app_label or not model_label:`; when app_label is falsy
the short-circuit raises the AttributeError, and when app_label is truthy
Python evaluates `not model_label`, a name bound in no scope of the module,
so a NameError is raised regardless of model_name. The django get_model
lookup on lines 49-54 is therefore unreachable. -/
def get_model (k : Kwargs) : Except PyErr Model :=
  match k.model with
  | some m => Except.ok m
  | none =>
      if pyTruthy k.app_label then
        Except.error (PyErr.nameError "model_label")
      else
        Except.error (PyErr.attributeError
          "Generic vote view must be called with app_label and model_label ")

/-- VoteObjectMixin.get_slug_field: returns the class attribute slug_field,
which is the string slug. -/
def get_slug_field : String := "slug"

/-- Lines 70-77 of get_object: choose the single lookup pair (field, value),
the field being matched with `__exact` semantics by `manager_get`. The pk
branch is taken whenever object_id is truthy; otherwise the slug branch needs
both slug and slug_field truthy; otherwise the AttributeError is raised. -/
def lookup_kwargs (k : Kwargs) (m : Model) (slug_field : String) :
    Except PyErr (String × String) :=
  if pyTruthy k.object_id then
    Except.ok (m.pkName, k.object_id.getD "")
  else if pyTruthy k.slug && !slug_field.isEmpty then
    Except.ok (slug_field, k.slug.getD "")
  else
    Except.error (PyErr.attributeError
      "Generic vote view must be called with either object_id or slug and slug_field.")

inductive LookupErr where
  | doesNotExist
  | multiple
deriving Repr, DecidableEq

/-- The value of field f on row o. -/
def objField (o : Obj) (f : String) : Option String :=
  (o.fields.find? (fun p => p.1 == f)).map (fun p => p.2)

/-- model._default_manager.get(field__exact=v): the unique matching row;
ObjectDoesNotExist on zero matches, MultipleObjectsReturned on several. -/
def manager_get (m : Model) (f v : String) : Except LookupErr Obj :=
  match m.rows.filter (fun o => objField o f == some v) with
  | [o] => Except.ok o
  | [] => Except.error LookupErr.doesNotExist
  | _ => Except.error LookupErr.multiple

/-- VoteObjectMixin.get_object (lines 56-83). ObjectDoesNotExist from the
manager is caught and re-raised as the AttributeError bad-input condition
(the source renders the lookup kwargs dict into the message; here the single
field=value pair is rendered). MultipleObjectsReturned is not caught. -/
def get_object (k : Kwargs) : Except PyErr Obj :=
  match get_model k with
  | Except.error e => Except.error e
  | Except.ok m =>
      match lookup_kwargs k m get_slug_field with
      | Except.error e => Except.error e
      | Except.ok lk =>
          match manager_get m lk.1 lk.2 with
          | Except.ok o => Except.ok o
          | Except.error LookupErr.doesNotExist =>
              Except.error (PyErr.attributeError
                ("No " ++ m.app_label ++ " found for " ++ lk.1 ++ "__exact=" ++ lk.2 ++ "."))
          | Except.error LookupErr.multiple =>
              Except.error PyErr.multipleObjectsReturned

/-- VoteObjectMixin.vote_on_object (lines 85-105): with a truthy direction
kwarg the token is looked up in dict(VOTE_DIRECTIONS) — a KeyError becomes
the AttributeError bad-input condition (the source quotes the token in the
message) — and record_vote is called with the mapped integer; with no truthy
direction, toggle is called. The chosen store call result is returned. -/
def vote_on_object (k : Kwargs) (user : String) (obj : Obj) (st : VoteState) :
    Except PyErr (Option VoteRec × VoteState) :=
  if pyTruthy k.direction then
    match dirLookup (k.direction.getD "") with
    | some v =>
        let p := record_vote obj user v st
        Except.ok (some p.1, p.2)
    | none =>
        Except.error (PyErr.attributeError
          (k.direction.getD "" ++ " is not a valid vote type."))
  else
    Except.ok (toggle obj user st)

/-- A value placed in a response context dictionary. -/
inductive JVal where
  | jInt (n : Int)
  | jBool (b : Bool)
  | jStr (s : String)
  | jModel (m : Model)
  | jVote (v : Option VoteRec)
  | jErrObj (msg : String)
deriving Repr, DecidableEq

abbrev Context := List (String × JVal)

/-- VoteObjectMixin.get_context_data (lines 130-139): context = {} then
updated with the keyword arguments, i.e. exactly the given pairs (the
context_object_name insertion is commented out in the source). -/
def get_context_data (kw : Context) : Context := kw

/-- The context built in the ajax except branches: success False and the
caught exception object under the error key. -/
def errorContext (msg : String) : Context :=
  [("success", JVal.jBool false), ("error", JVal.jErrObj msg)]

/-- The URL kwargs as they enter the synchronous GET context via **kwargs. -/
def kwargsContext (k : Kwargs) : Context :=
  (match k.model with | some m => [("model", JVal.jModel m)] | none => []) ++
  (match k.app_label with | some s => [("app_label", JVal.jStr s)] | none => []) ++
  (match k.model_name with | some s => [("model_name", JVal.jStr s)] | none => []) ++
  (match k.object_id with | some s => [("object_id", JVal.jStr s)] | none => []) ++
  (match k.slug with | some s => [("slug", JVal.jStr s)] | none => []) ++
  (match k.direction with | some s => [("direction", JVal.jStr s)] | none => [])

namespace VoteView

/-- VoteView.get (lines 159-163): resolve, score, render the template context
get_context_data(score=score, **kwargs). No store mutation occurs; the vote
state is threaded unchanged. Exceptions propagate. -/
def get (k : Kwargs) (st : VoteState) : Except PyErr Context × VoteState :=
  match get_object k with
  | Except.error e => (Except.error e, st)
  | Except.ok obj =>
      (Except.ok (get_context_data
        (("score", JVal.jInt (get_score obj st)) :: kwargsContext k)), st)

/-- VoteView.get_ajax (lines 165-175): the try block covers resolution and
scoring; only AttributeError is caught and turned into the error context.
Other exceptions escape render_json_response. -/
def get_ajax (k : Kwargs) (st : VoteState) : Except PyErr Context × VoteState :=
  match get_object k with
  | Except.ok obj =>
      (Except.ok (get_context_data [("score", JVal.jInt (get_score obj st))]), st)
  | Except.error (PyErr.attributeError m) => (Except.ok (errorContext m), st)
  | Except.error e => (Except.error e, st)

/-- VoteView.post (lines 177-197): resolve, vote, then line 181 reads the
bare name `post_vote_redirect`, which is bound in no scope of the module (the
class attribute would be `self.post_vote_redirect`), so a NameError is raised
after the vote has been recorded; the redirect selection on lines 181-197 is
unreachable. vote_on_object raises only before touching the store, so on its
error the state is the input state. Nothing is caught here. -/
def post (k : Kwargs) (user : String) (st : VoteState) :
    Except PyErr String × VoteState :=
  match get_object k with
  | Except.error e => (Except.error e, st)
  | Except.ok obj =>
      match vote_on_object k user obj st with
      | Except.error e => (Except.error e, st)
      | Except.ok (_, st2) =>
          (Except.error (PyErr.nameError "post_vote_redirect"), st2)

/-- VoteView.post_ajax (lines 199-210): the try block covers resolution,
voting and scoring; only AttributeError is caught and turned into the error
context; on success the rendered context is exactly
get_context_data(score=score, vote=vote, success=True). -/
def post_ajax (k : Kwargs) (user : String) (st : VoteState) :
    Except PyErr Context × VoteState :=
  match get_object k with
  | Except.error (PyErr.attributeError m) => (Except.ok (errorContext m), st)
  | Except.error e => (Except.error e, st)
  | Except.ok obj =>
      match vote_on_object k user obj st with
      | Except.error (PyErr.attributeError m) => (Except.ok (errorContext m), st)
      | Except.error e => (Except.error e, st)
      | Except.ok (v, st2) =>
          (Except.ok (get_context_data
            [("score", JVal.jInt (get_score obj st2)),
             ("vote", JVal.jVote v),
             ("success", JVal.jBool true)]), st2)

end VoteView

/-- Characters matched by the regex class \w (ASCII). -/
def wordChar (c : Char) : Bool := c.isAlphanum || c == '_'

/-- Characters matched by the app_label segment class [\w\.-]. -/
def appLabelChar (c : Char) : Bool := wordChar c || c == '.' || c == '-'

/-- Well-formedness of the four captured segments of the voting_vote URL
pattern: [\w\.-]+ , \w+ , \d+ , and up|down|clear. -/
def routeOk (al mn oid dr : String) : Bool :=
  !al.isEmpty && al.toList.all appLabelChar &&
  !mn.isEmpty && mn.toList.all wordChar &&
  !oid.isEmpty && oid.toList.all Char.isDigit &&
  (dr == "up" || dr == "down" || dr == "clear")

/-- voting/urls.py: the single pattern
^vote/(app_label)/(model_name)/(object_id)/(direction)/$ applied to the
slash-separated segments of the request path (leading slash stripped). Since
no segment class admits a slash, segment splitting is faithful to the regex.
On a match, the captured groups become the view kwargs. -/
def matchSegs : List String → Option Kwargs
  | [s0, al, mn, oid, dr, s5] =>
      if s0 == "vote" && routeOk al mn oid dr && s5 == "" then
        some { app_label := some al, model_name := some mn,
               object_id := some oid, direction := some dr }
      else none
  | _ => none

/-- Splitting a character list on the slash separator; structural model of
String.splitOn for the one-character separator, so "a/b" gives [a, b], the
empty path gives one empty segment, and a trailing slash yields a final
empty segment. -/
def splitSlashAux : List Char → List (List Char)
  | [] => [[]]
  | c :: cs =>
      match splitSlashAux cs with
      | [] => [[]]
      | s :: rest => if c = '/' then [] :: s :: rest else (c :: s) :: rest

/-- The slash-separated segments of a request path. -/
def pathSegs (p : String) : List String :=
  (splitSlashAux p.toList).map (fun s => String.mk s)

/-- URL resolution of a request path against urlpatterns of voting/urls.py. -/
def matchRoute (path : String) : Option Kwargs := matchSegs (pathSegs path)

/-- Sample row with primary key 1 and slug first. -/
def sampleObj : Obj := ⟨[("id", "1"), ("slug", "first")]⟩

/-- Sample model of app polls whose table holds exactly sampleObj. -/
def sampleModel : Model := ⟨"polls", "id", [sampleObj]⟩

/-- The empty vote table. -/
def emptyState : VoteState := ⟨[]⟩

/-- The kwargs the exposed route produces for /vote/polls/poll/1/up/. -/
def routeKwargsUp : Kwargs :=
  { app_label := some "polls", model_name := some "poll",
    object_id := some "1", direction := some "up" }

/-- The kwargs the exposed route produces for /vote/polls/poll/99/up/:
no row of sampleModel has primary key 99. -/
def routeKwargs99 : Kwargs :=
  { app_label := some "polls", model_name := some "poll",
    object_id := some "99", direction := some "up" }

/-- A request configured with an explicit model kwarg, resolving sampleObj,
direction up. -/
def modelKwargsUp : Kwargs :=
  { model := some sampleModel, object_id := some "1", direction := some "up" }

/-- A request with an explicit model kwarg whose object_id matches no row. -/
def missingRowKwargs : Kwargs :=
  { model := some sampleModel, object_id := some "2" }

/-- A request with an explicit model kwarg and an invalid direction token. -/
def badDirKwargs : Kwargs :=
  { model := some sampleModel, object_id := some "1", direction := some "west" }

/-- C1: with an explicit direction token, vote_on_object maps up to +1, down
to -1 and clear to 0 and returns exactly the result (record and new state) of
record_vote at that integer; with no direction kwarg it returns exactly the
result of toggle. -/
theorem C1_direction_dispatch (k : Kwargs) (user : String) (obj : Obj)
    (st : VoteState) :
    (k.direction = some "up" →
      vote_on_object k user obj st =
        Except.ok (some (record_vote obj user 1 st).1,
                   (record_vote obj user 1 st).2)) ∧
    (k.direction = some "down" →
      vote_on_object k user obj st =
        Except.ok (some (record_vote obj user (-1) st).1,
                   (record_vote obj user (-1) st).2)) ∧
    (k.direction = some "clear" →
      vote_on_object k user obj st =
        Except.ok (some (record_vote obj user 0 st).1,
                   (record_vote obj user 0 st).2)) ∧
    (k.direction = none →
      vote_on_object k user obj st = Except.ok (toggle obj user st)) := by
  refine ⟨fun h => ?_, fun h => ?_, fun h => ?_, fun h => ?_⟩
  all_goals
    unfold vote_on_object
    rw [h]
    rfl

/-- Witness for C1 at concrete inputs, one per direction case. -/
theorem C1_direction_dispatch_witness :
    (vote_on_object { direction := some "up" } "alice" sampleObj emptyState =
      Except.ok (some (record_vote sampleObj "alice" 1 emptyState).1,
                 (record_vote sampleObj "alice" 1 emptyState).2)) ∧
    (vote_on_object { direction := some "down" } "alice" sampleObj emptyState =
      Except.ok (some (record_vote sampleObj "alice" (-1) emptyState).1,
                 (record_vote sampleObj "alice" (-1) emptyState).2)) ∧
    (vote_on_object { direction := some "clear" } "alice" sampleObj emptyState =
      Except.ok (some (record_vote sampleObj "alice" 0 emptyState).1,
                 (record_vote sampleObj "alice" 0 emptyState).2)) ∧
    (vote_on_object { direction := none } "alice" sampleObj emptyState =
      Except.ok (toggle sampleObj "alice" emptyState)) :=
  ⟨(C1_direction_dispatch _ "alice" sampleObj emptyState).1 rfl,
   (C1_direction_dispatch _ "alice" sampleObj emptyState).2.1 rfl,
   (C1_direction_dispatch _ "alice" sampleObj emptyState).2.2.1 rfl,
   (C1_direction_dispatch _ "alice" sampleObj emptyState).2.2.2 rfl⟩

/-- C2: a synchronous POST that resolves its object and records the vote does
not redirect: line 181 of views.py reads the unbound bare name
post_vote_redirect (the class attribute would be self.post_vote_redirect), so
after the vote is stored a NameError is raised and none of the three redirect
sources is ever consulted. -/
theorem C2_post_never_redirects :
    VoteView.post modelKwargsUp "alice" emptyState =
      (Except.error (PyErr.nameError "post_vote_redirect"),
       ⟨[⟨sampleObj, "alice", 1⟩]⟩) := rfl

/-- C3: with an explicit model kwarg, a successful async POST renders exactly
the keys score, vote, success=true, and a caught bad-input failure renders
the error payload; but for the kwargs the exposed route actually produces
(app_label present, no explicit model), get_model raises NameError, which
post_ajax does not catch, so no JSON payload is rendered. -/
theorem C3_post_ajax_payloads :
    VoteView.post_ajax modelKwargsUp "alice" emptyState =
      (Except.ok [("score", JVal.jInt 1),
                  ("vote", JVal.jVote (some ⟨sampleObj, "alice", 1⟩)),
                  ("success", JVal.jBool true)],
       ⟨[⟨sampleObj, "alice", 1⟩]⟩) ∧
    VoteView.post_ajax missingRowKwargs "alice" emptyState =
      (Except.ok (errorContext "No polls found for id__exact=2."), emptyState) ∧
    VoteView.post_ajax routeKwargsUp "alice" emptyState =
      (Except.error (PyErr.nameError "model_label"), emptyState) :=
  ⟨rfl, rfl, rfl⟩

/-- C4: with an explicit model kwarg, an async GET on a missing row renders
the error payload with no escaping exception; but on the kwargs produced by
the exposed route for a nonexistent object, get_model raises NameError
(unbound model_label), which get_ajax only catches as AttributeError, so the
exception escapes the handler. -/
theorem C4_get_ajax_error_handling :
    VoteView.get_ajax missingRowKwargs emptyState =
      (Except.ok (errorContext "No polls found for id__exact=2."), emptyState) ∧
    matchRoute "vote/polls/poll/99/up/" = some routeKwargs99 ∧
    VoteView.get_ajax routeKwargs99 emptyState =
      (Except.error (PyErr.nameError "model_label"), emptyState) :=
  ⟨rfl, by decide, rfl⟩

/-- C5: the failure kinds are not one generic bad-input condition: whenever
app_label is truthy (model_name present or not), get_model raises NameError
from the unbound name model_label instead of the AttributeError raised by the
other validation failures, and the model-does-not-exist AttributeError of
lines 50-52 is unreachable. -/
theorem C5_bad_input_not_uniform :
    get_model { app_label := some "polls", model_name := some "poll" } =
      Except.error (PyErr.nameError "model_label") ∧
    get_model { app_label := some "polls" } =
      Except.error (PyErr.nameError "model_label") ∧
    get_model {} =
      Except.error (PyErr.attributeError
        "Generic vote view must be called with app_label and model_label ") ∧
    vote_on_object badDirKwargs "alice" sampleObj emptyState =
      Except.error (PyErr.attributeError "west is not a valid vote type.") ∧
    lookup_kwargs {} sampleModel get_slug_field =
      Except.error (PyErr.attributeError
        "Generic vote view must be called with either object_id or slug and slug_field.") :=
  ⟨rfl, rfl, rfl, rfl, rfl⟩

/-- C6: the AttributeError bad-input condition arising from object resolution
or direction validation propagates out of the synchronous post handler
unchanged, while post_ajax catches it and renders the structured error
context instead. -/
theorem C6_sync_uncaught_async_caught (k : Kwargs) (user : String)
    (st : VoteState) (msg : String) :
    (get_object k = Except.error (PyErr.attributeError msg) →
      VoteView.post k user st = (Except.error (PyErr.attributeError msg), st) ∧
      VoteView.post_ajax k user st = (Except.ok (errorContext msg), st)) ∧
    (∀ obj, get_object k = Except.ok obj →
      vote_on_object k user obj st = Except.error (PyErr.attributeError msg) →
      VoteView.post k user st = (Except.error (PyErr.attributeError msg), st) ∧
      VoteView.post_ajax k user st = (Except.ok (errorContext msg), st)) := by
  constructor
  · intro h
    constructor <;> simp [VoteView.post, VoteView.post_ajax, h]
  · intro obj h1 h2
    constructor <;> simp [VoteView.post, VoteView.post_ajax, h1, h2]

/-- Witness for C6: a resolution failure (missing row) and a validation
failure (invalid token) at concrete inputs. -/
theorem C6_sync_uncaught_async_caught_witness :
    (VoteView.post missingRowKwargs "alice" emptyState =
       (Except.error (PyErr.attributeError "No polls found for id__exact=2."),
        emptyState) ∧
     VoteView.post_ajax missingRowKwargs "alice" emptyState =
       (Except.ok (errorContext "No polls found for id__exact=2."), emptyState)) ∧
    (VoteView.post badDirKwargs "alice" emptyState =
       (Except.error (PyErr.attributeError "west is not a valid vote type."),
        emptyState) ∧
     VoteView.post_ajax badDirKwargs "alice" emptyState =
       (Except.ok (errorContext "west is not a valid vote type."), emptyState)) :=
  ⟨(C6_sync_uncaught_async_caught missingRowKwargs "alice" emptyState
      "No polls found for id__exact=2.").1 rfl,
   (C6_sync_uncaught_async_caught badDirKwargs "alice" emptyState
      "west is not a valid vote type.").2 sampleObj rfl rfl⟩

/-- C7: the lookup pair is built from exactly one of the two identifier
forms: a truthy object_id always selects the primary-key lookup, the slug
lookup is selected only when object_id is falsy and slug (with a nonempty
slug field) is truthy, and when neither is available the generic
AttributeError is raised, also end to end through get_object. -/
theorem C7_identifier_resolution_exclusive (k : Kwargs) (m : Model)
    (sf : String) :
    (pyTruthy k.object_id = true →
      lookup_kwargs k m sf = Except.ok (m.pkName, k.object_id.getD "")) ∧
    (pyTruthy k.object_id = false → (pyTruthy k.slug && !sf.isEmpty) = true →
      lookup_kwargs k m sf = Except.ok (sf, k.slug.getD "")) ∧
    (pyTruthy k.object_id = false → (pyTruthy k.slug && !sf.isEmpty) = false →
      lookup_kwargs k m sf = Except.error (PyErr.attributeError
        "Generic vote view must be called with either object_id or slug and slug_field.")) ∧
    (k.model = some m → pyTruthy k.object_id = false → pyTruthy k.slug = false →
      get_object k = Except.error (PyErr.attributeError
        "Generic vote view must be called with either object_id or slug and slug_field.")) := by
  refine ⟨fun h1 => ?_, fun h1 h2 => ?_, fun h1 h2 => ?_, fun hm h1 h2 => ?_⟩
  · simp [lookup_kwargs, h1]
  · simp [lookup_kwargs, h1, h2]
  · simp [lookup_kwargs, h1, h2]
  · simp [get_object, get_model, hm, lookup_kwargs, h1, h2]

/-- Witness for C7: its four cases at concrete inputs. -/
theorem C7_identifier_resolution_exclusive_witness :
    lookup_kwargs modelKwargsUp sampleModel "slug" = Except.ok ("id", "1") ∧
    lookup_kwargs { slug := some "first" } sampleModel "slug" =
      Except.ok ("slug", "first") ∧
    lookup_kwargs {} sampleModel "slug" = Except.error (PyErr.attributeError
      "Generic vote view must be called with either object_id or slug and slug_field.") ∧
    get_object { model := some sampleModel } = Except.error (PyErr.attributeError
      "Generic vote view must be called with either object_id or slug and slug_field.") :=
  ⟨(C7_identifier_resolution_exclusive modelKwargsUp sampleModel "slug").1 rfl,
   (C7_identifier_resolution_exclusive { slug := some "first" } sampleModel "slug").2.1
     rfl rfl,
   (C7_identifier_resolution_exclusive {} sampleModel "slug").2.2.1 rfl rfl,
   (C7_identifier_resolution_exclusive { model := some sampleModel } sampleModel
     "slug").2.2.2 rfl rfl rfl⟩

/-- Every match of the urlpatterns carries a direction kwarg. -/
theorem matchSegs_direction_present (xs : List String) (k : Kwargs)
    (h : matchSegs xs = some k) : k.direction ≠ none := by
  match xs with
  | [] | [_] | [_, _] | [_, _, _] | [_, _, _, _] | [_, _, _, _, _] =>
      simp [matchSegs] at h
  | _ :: _ :: _ :: _ :: _ :: _ :: _ :: _ =>
      simp [matchSegs] at h
  | [s0, al, mn, oid, dr, s5] =>
      rw [matchSegs] at h
      split at h
      · cases h
        simp
      · cases h

/-- C8 counterexample: the claim asserts some routable request omits the
direction token; in fact the single pattern of voting/urls.py makes the
direction segment mandatory, so no resolvable path yields kwargs without a
direction. -/
theorem C8_no_direction_free_route :
    ¬ ∃ p k, matchRoute p = some k ∧ k.direction = none := by
  rintro ⟨p, k, hm, hd⟩
  exact matchSegs_direction_present (pathSegs p) k hm hd

/-- C8 amended: the exposed route accepts exactly the explicit-direction
forms up, down and clear; a path omitting the direction segment does not
resolve, so the toggle branch of vote_on_object is not reachable through the
provided urlpatterns. -/
theorem C8_route_requires_direction :
    matchRoute "vote/polls/poll/1/up/" =
      some { app_label := some "polls", model_name := some "poll",
             object_id := some "1", direction := some "up" } ∧
    matchRoute "vote/polls/poll/1/down/" =
      some { app_label := some "polls", model_name := some "poll",
             object_id := some "1", direction := some "down" } ∧
    matchRoute "vote/polls/poll/1/clear/" =
      some { app_label := some "polls", model_name := some "poll",
             object_id := some "1", direction := some "clear" } ∧
    matchRoute "vote/polls/poll/1/" = none ∧
    matchRoute "vote/polls/poll/1/toggle/" = none := by
  refine ⟨by decide, by decide, by decide, by decide, by decide⟩

/-- C9: whenever object_id is truthy the primary-key lookup is used and the
slug kwarg is ignored: the built lookup pair is the pk pair, and get_object
gives the same result with the slug kwarg removed. -/
theorem C9_slug_ignored_with_id (k : Kwargs) (m : Model) (sf : String)
    (h : pyTruthy k.object_id = true) :
    lookup_kwargs k m sf = Except.ok (m.pkName, k.object_id.getD "") ∧
    get_object k = get_object { k with slug := none } := by
  constructor
  · simp [lookup_kwargs, h]
  · cases hkm : k.model with
    | none =>
        cases hal : pyTruthy k.app_label <;>
          simp [get_object, get_model, hkm, hal]
    | some m2 => simp [get_object, get_model, hkm, lookup_kwargs, h]

/-- Witness for C9: a request supplying both object_id 1 and slug first
resolves by primary key exactly as it does with the slug removed. -/
theorem C9_slug_ignored_with_id_witness :
    lookup_kwargs
        { model := some sampleModel, object_id := some "1", slug := some "first" }
        sampleModel "slug" = Except.ok ("id", "1") ∧
    get_object
        { model := some sampleModel, object_id := some "1", slug := some "first" } =
      get_object { model := some sampleModel, object_id := some "1" } :=
  (C9_slug_ignored_with_id
    { model := some sampleModel, object_id := some "1", slug := some "first" }
    sampleModel "slug" rfl)

/-- C10: neither read handler mutates the vote store: for every request the
synchronous and the asynchronous GET return the vote state they were given
(they only resolve the object and call the pure get_score). -/
theorem C10_reads_preserve_votes (k : Kwargs) (st : VoteState) :
    (VoteView.get k st).2 = st ∧ (VoteView.get_ajax k st).2 = st := by
  constructor
  · cases h : get_object k with
    | error e => simp [VoteView.get, h]
    | ok o => simp [VoteView.get, h]
  · cases h : get_object k with
    | error e => cases e <;> simp [VoteView.get_ajax, h]
    | ok o => simp [VoteView.get_ajax, h]

end Voting
